import Mathlib

/-!
# Verification of the D1 HTTP API gateway (`src/index.ts`)

A shallow embedding of the request-validation → authorization → dispatch →
response-shaping pipeline of the Hono/zod Worker in `src/index.ts`, together
with theorems settling the frozen behavioural claims about it.

Modelling conventions:

* JSON values are the inductive `JValue`.  JavaScript numbers are modelled as
  `Rat` (NaN/Infinity are outside the model; on ordinary numbers JS falsiness
  is exactly `= 0`).
* JavaScript string length (`.length`, UTF-16 code units) and `trim()` are
  modelled by Lean `String.length` and `String.trim`; they agree on the ASCII
  inputs used in the witnesses.
* Thrown JavaScript values are `JSThrown`: either an `Error` instance (whose
  template-literal form is `Error: message` and whose `JSON.stringify` form is
  the empty object, since `Error` own properties are not enumerable) or a
  plain JSON value.
* The D1 database binding is the oracle structure `Backend`, recording for
  each possible call what the backend would return or throw for this request.
  Handlers additionally return the list of backend operations they invoke
  (`BackendOp`), so that "no backend call is performed" is expressible.
* The `hono/bearer-auth` middleware and the `@hono/zod-validator` failure
  response are library code that is not part of this repository; they are
  modelled from the spec (§4.1, §4.2): see `authOK`, `unauthorizedResponse`
  and `validationFailureResponse`.  Everything else is translated from
  `src/index.ts`.
-/

/-- A JSON value, as produced by parsing a request body. -/
inductive JValue where
  | null : JValue
  | bool (b : Bool) : JValue
  | num (q : Rat) : JValue
  | str (s : String) : JValue
  | arr (xs : List JValue) : JValue
  | obj (fields : List (String × JValue)) : JValue
deriving Repr

/-- Is this JSON value a string?  (Used to state the error-envelope claims.) -/
def JValue.isStr : JValue → Bool
  | .str _ => true
  | _ => false

/-- Field lookup in a JSON object (first occurrence wins; no claim involves
duplicate keys, where JSON.parse would keep the last). -/
def getField : List (String × JValue) → String → Option JValue
  | [], _ => none
  | (k, v) :: rest, key => if k = key then some v else getField rest key

/-- The `error` field of a JSON object body, when present. -/
def JValue.errorField : JValue → Option JValue
  | .obj fs => getField fs "error"
  | _ => none

/-- A thrown JavaScript value: an `Error` instance or any other value. -/
inductive JSThrown where
  | errorObj (message : String) : JSThrown
  | value (v : JValue) : JSThrown
deriving Repr

/-- Template-literal stringification of a JSON value, as in a JS backtick
string.  Arrays join their elements with commas; plain objects print as
`[object Object]`. -/
def jsString : JValue → String
  | .null => "null"
  | .bool b => if b then "true" else "false"
  | .num q => toString q
  | .str s => s
  | .arr xs => String.intercalate "," (xs.attach.map (fun x => jsString x.1))
  | .obj _ => "[object Object]"
decreasing_by
  simp_wf
  have := List.sizeOf_lt_of_mem x.2
  omega

/-- Template-literal stringification of a thrown value, as used by the
handlers in `failed to ... query: ERR` messages. -/
def JSThrown.jsStr : JSThrown → String
  | .errorObj m => "Error: " ++ m
  | .value v => jsString v

/-- JSON serialisation of a thrown value, as `c.json` applies to the raw
value in the `/exec/` catch branch: an `Error` instance serialises to the
empty object (its own properties are not enumerable). -/
def JSThrown.toJson : JSThrown → JValue
  | .errorObj _ => .obj []
  | .value v => v

/-- `src/index.ts` line 8: `const MIN_SECRET_LENGTH = 16`. -/
def MIN_SECRET_LENGTH : Nat := 16

/-- The parsed output of the `PreparedQuery` zod schema (lines 27–31):
`queryText: z.string().min(1).max(1e4).trim()` and
`params: z.any().array().optional()`. -/
structure PreparedQuery where
  queryText : String
  params : Option (List JValue)
deriving Repr

/-- Leading and trailing whitespace removal on a character list. -/
def trimChars (cs : List Char) : List Char :=
  (((cs.dropWhile Char.isWhitespace).reverse).dropWhile Char.isWhitespace).reverse

/-- JavaScript `String.prototype.trim`, modelled directly over the character
list (Lean's own `String.trim` is defined through `Substring` auxiliaries
that do not reduce in the kernel). -/
def jsTrim (s : String) : String :=
  String.mk (trimChars s.data)

/-- The zod pipeline `z.string().min(1).max(maxLen).trim()`: zod runs its
checks in registration order, so `min`/`max` test the length of the RAW
string and the `trim()` transform runs afterwards; the parsed output is the
trimmed string. -/
def zodQueryText (maxLen : Nat) (v : JValue) : Option String :=
  match v with
  | .str s => if 1 ≤ s.length ∧ s.length ≤ maxLen then some (jsTrim s) else none
  | _ => none

/-- The `params: z.any().array().optional()` field: absent is allowed; when
present the value must be an array, whose elements `z.any()` accepts without
any restriction. -/
def zodParams (v : Option JValue) : Option (Option (List JValue)) :=
  match v with
  | none => some none
  | some (.arr xs) => some (some xs)
  | some _ => none

/-- The `PreparedQuery` object schema (lines 27–31) applied to a JSON body. -/
def parsePreparedQuery (v : JValue) : Option PreparedQuery :=
  match v with
  | .obj fs =>
    match getField fs "queryText" with
    | none => none
    | some qv =>
      match zodQueryText 10000 qv with
      | none => none
      | some q =>
        match zodParams (getField fs "params") with
        | none => none
        | some ps => some { queryText := q, params := ps }
  | _ => none

/-- The `ExecQuery` object schema (lines 33–36): only a `queryText` with the
larger 1e6 ceiling; returns the validated (trimmed) query text. -/
def parseExecQuery (v : JValue) : Option String :=
  match v with
  | .obj fs =>
    match getField fs "queryText" with
    | none => none
    | some qv => zodQueryText 1000000 qv
  | _ => none

/-- Element-wise `PreparedQuery.array()` parsing. -/
def parseQueryList : List JValue → Option (List PreparedQuery)
  | [] => some []
  | v :: vs =>
    match parsePreparedQuery v with
    | none => none
    | some q =>
      match parseQueryList vs with
      | none => none
      | some qs => some (q :: qs)

/-- The `BatchQuery` object schema (lines 38–40):
`batch: PreparedQuery.array().nonempty()`. -/
def parseBatchQuery (v : JValue) : Option (List PreparedQuery) :=
  match v with
  | .obj fs =>
    match getField fs "batch" with
    | some (.arr xs) =>
      match parseQueryList xs with
      | none => none
      | some [] => none
      | some qs => some qs
    | _ => none
  | _ => none

/-- A D1 prepared statement: the query text together with the bound
parameters when `bind` was called on it. -/
structure Stmt where
  text : String
  bound : Option (List JValue)
deriving Repr

/-- Lines 125–128 / 178–184: `DB.prepare(query.queryText)` followed by
`stmt.bind(...query.params)` exactly when `query.params` is truthy (absent is
`undefined`, falsy; any array, even empty, is truthy). -/
def mkStmt (q : PreparedQuery) : Stmt :=
  match q.params with
  | some ps => { text := q.queryText, bound := some ps }
  | none => { text := q.queryText, bound := none }

/-- A backend (D1) operation invoked by a handler. -/
inductive BackendOp where
  | prepare (text : String) : BackendOp
  | bind (text : String) (params : List JValue) : BackendOp
  | all (stmt : Stmt) : BackendOp
  | exec (text : String) : BackendOp
  | batch (stmts : List Stmt) : BackendOp
deriving Repr

/-- A D1 result object as consumed by the handlers: `results`, `error` and
`meta` fields, each possibly absent. -/
structure D1Result where
  results : Option (List JValue)
  error : Option String
  meta : Option JValue
deriving Repr

/-- The value returned by `db.exec`: possibly null/undefined, and its `count`
and `duration` properties possibly absent (cf. the `ts-expect-error`
annotated accesses on lines 157–162). -/
structure ExecOut where
  count : Option Rat
  duration : Option Rat
deriving Repr

/-- The backend capability for one request: what each D1 call would return or
throw.  `prepare` and `bind` are pure statement constructors in the client
API and cannot fail here; the execution calls may throw. -/
structure Backend where
  allResult : Stmt → Except JSThrown D1Result
  execResult : String → Except JSThrown (Option ExecOut)
  batchResult : List Stmt → Except JSThrown (List D1Result)

/-- An HTTP response: status code and JSON-able body. -/
structure HttpResponse where
  status : Nat
  body : JValue
deriving Repr

/-- `x || 0` on a possibly-absent number: `undefined` and falsy `0` become
`0`, everything else passes through. -/
def orZero (v : Option Rat) : Rat :=
  match v with
  | none => 0
  | some q => if q = 0 then 0 else q

/-- The success envelope `{results, meta}` (and per-item `{results, error,
meta}` for batch): `c.json` drops fields that are `undefined`. -/
def queryRespJson (results : Option (List JValue)) (error : Option String)
    (meta : Option JValue) : JValue :=
  .obj ((match results with
         | some rs => [("results", JValue.arr rs)]
         | none => []) ++
        (match error with
         | some e => [("error", JValue.str e)]
         | none => []) ++
        (match meta with
         | some m => [("meta", m)]
         | none => []))

/-- The backend operations attempted by the `/all/` handler: prepare, bind
when params are present, then `stmt.all()`. -/
def allOps (q : PreparedQuery) : List BackendOp :=
  BackendOp.prepare q.queryText ::
    ((match q.params with
      | some ps => [BackendOp.bind q.queryText ps]
      | none => []) ++ [BackendOp.all (mkStmt q)])

/-- The `/query/all/` handler body (lines 121–142), after validation. -/
def allHandler (be : Backend) (q : PreparedQuery) : HttpResponse × List BackendOp :=
  match be.allResult (mkStmt q) with
  | .ok result =>
    ({ status := 200, body := queryRespJson result.results none result.meta }, allOps q)
  | .error err =>
    ({ status := 500,
       body := .obj [("error", .str ("failed to run query: " ++ err.jsStr))] }, allOps q)

/-- The `/query/exec/` handler body (lines 151–170), after validation.  On
success the response is `{count: out?.count || 0, durationMs: out?.duration
|| 0}`; the catch branch returns the RAW thrown value as the `error` field. -/
def execHandler (be : Backend) (queryText : String) : HttpResponse × List BackendOp :=
  match be.execResult queryText with
  | .ok out =>
    ({ status := 200,
       body := .obj [("count", .num (orZero (out.bind ExecOut.count))),
                     ("durationMs", .num (orZero (out.bind ExecOut.duration)))] },
     [BackendOp.exec queryText])
  | .error err =>
    ({ status := 500, body := .obj [("error", err.toJson)] }, [BackendOp.exec queryText])

/-- The prepare/bind operations the batch handler performs for each query in
submission order (lines 177–185). -/
def batchPrepOps (qs : List PreparedQuery) : List BackendOp :=
  qs.flatMap (fun q =>
    BackendOp.prepare q.queryText ::
      (match q.params with
       | some ps => [BackendOp.bind q.queryText ps]
       | none => []))

/-- The per-item envelope built in the batch loop (lines 189–196):
`{results: result.results, error: result.error, meta: result.meta}`. -/
def d1Envelope (r : D1Result) : JValue :=
  queryRespJson r.results r.error r.meta

/-- The `/query/batch/` handler body (lines 172–204), after validation:
statements are built from the batch in submission order, submitted in one
`DB.batch` call, and the returned results are enveloped in the returned
order; `c.json(batchResp)` defaults to status 200. -/
def batchHandler (be : Backend) (qs : List PreparedQuery) : HttpResponse × List BackendOp :=
  let ops := batchPrepOps qs ++ [BackendOp.batch (qs.map mkStmt)]
  match be.batchResult (qs.map mkStmt) with
  | .ok batchResults =>
    ({ status := 200, body := .arr (batchResults.map d1Envelope) }, ops)
  | .error err =>
    ({ status := 500,
       body := .obj [("error", .str ("failed to batch query: " ++ err.jsStr))] }, ops)

/-- Modelled from the spec: the `hono/bearer-auth` middleware installed by
`query.use("*", bearerAuth({token: d1API.sharedSecret}))` (line 112) is
library code not present in this repository.  Per spec §4.1 the request
passes exactly when the `Authorization` header is present, of scheme
`Bearer`, and its token equals the configured secret. -/
def authOK (secret : String) (authHeader : Option String) : Bool :=
  match authHeader with
  | some h => h = "Bearer " ++ secret
  | none => false

/-- Modelled from the spec (§4.1): the rejection produced by the bearer-auth
middleware, a generic 401 that reaches no handler. -/
def unauthorizedResponse : HttpResponse :=
  { status := 401, body := .str "Unauthorized" }

/-- Modelled from the spec (§4.2): the 400 rejection produced by the
`zValidator` middleware when the body fails the route schema (the precise
error payload is library code not present in this repository). -/
def validationFailureResponse : HttpResponse :=
  { status := 400, body := .obj [("success", .bool false)] }

/-- The three POST routes of the `/query` group. -/
inductive QueryRoute where
  | all : QueryRoute
  | exec : QueryRoute
  | batch : QueryRoute
deriving Repr, DecidableEq

/-- A request to one of the `/query/*` routes: its route, its
`Authorization` header (if any), and its body as parsed JSON (`none` when
the body is not valid JSON, which the validator also rejects with 400). -/
structure QueryRequest where
  route : QueryRoute
  authHeader : Option String
  body : Option JValue
deriving Repr

/-- The `/query` group pipeline (lines 102–204): bearer auth first, then the
route-specific zod validation, then the handler.  Returns the response and
the list of backend operations invoked. -/
def handleQuery (secret : String) (be : Backend) (req : QueryRequest) :
    HttpResponse × List BackendOp :=
  if authOK secret req.authHeader then
    match req.route with
    | .all =>
      match req.body.bind parsePreparedQuery with
      | some q => allHandler be q
      | none => (validationFailureResponse, [])
    | .exec =>
      match req.body.bind parseExecQuery with
      | some t => execHandler be t
      | none => (validationFailureResponse, [])
    | .batch =>
      match req.body.bind parseBatchQuery with
      | some qs => batchHandler be qs
      | none => (validationFailureResponse, [])
  else
    (unauthorizedResponse, [])

/-- A thrown error escaping the `fetch` handler: either a `TypeError` raised
by the runtime or an explicit `new Error(msg)`. -/
inductive JSError where
  | typeError (message : String) : JSError
  | error (message : String) : JSError
deriving Repr, DecidableEq

/-- Line 69: the configuration error message thrown for a short secret. -/
def secretTooShortMsg : String :=
  s!"sharedSecret not long enough: must be at least {MIN_SECRET_LENGTH} bytes long"

/-- The `TypeError` the runtime raises when `sharedSecret.length` is read and
`sharedSecret` is `undefined`. -/
def lengthOfUndefinedMsg : String :=
  "Cannot read properties of undefined (reading length)"

/-- Line 88: the message thrown by `fetch` when the DB binding is absent. -/
def dbMissingMsg : String :=
  "A D1 database is not connected to the API. Confirm you have a [[d1_database]] binding called DB created."

/-- The state a successful `D1HTTP` construction stores (lines 61–74); the
`honoInstance` routing object is framework plumbing and carries no data the
claims mention. -/
structure D1HTTPState where
  db : Backend
  sharedSecret : String

/-- The `D1HTTP` constructor (lines 66–74).  The secret argument is an
`Option` because `env.APP_SECRET` may be undefined: in that case evaluating
`sharedSecret.length` raises a `TypeError` before the guarded length check
is reached.  A present secret shorter than `MIN_SECRET_LENGTH` throws the
configuration error; otherwise the constructor stores the secret unchanged. -/
def D1HTTP_new (db : Backend) : Option String → Except JSError D1HTTPState
  | none => .error (.typeError lengthOfUndefinedMsg)
  | some s =>
    if s.length < MIN_SECRET_LENGTH then
      .error (.error secretTooShortMsg)
    else
      .ok { db := db, sharedSecret := s }

/-- The environment bindings: the D1 database and the shared secret, either
of which may be absent at runtime. -/
structure Env where
  DB : Option Backend
  APP_SECRET : Option String

/-- The default-export `fetch` handler (lines 85–212) for a `/query/*`
request: a missing DB binding throws (line 88, an unhandled exception, i.e.
`Except.error` at the top level), then the `D1HTTP` constructor runs (line
95, whose throw is likewise unhandled), and the request is dispatched
through the query group pipeline. -/
def fetchHandler (env : Env) (req : QueryRequest) :
    Except JSError (HttpResponse × List BackendOp) :=
  match env.DB with
  | none => .error (.error dbMissingMsg)
  | some be =>
    match D1HTTP_new be env.APP_SECRET with
    | .error e => .error e
    | .ok st => .ok (handleQuery st.sharedSecret st.db req)

/-- A concrete backend used by the witnesses: `all` returns an empty result
set, `exec` returns undefined, `batch` echoes each statement text back as a
single-row result. -/
def stubBackend : Backend :=
  { allResult := fun _ => .ok { results := some [], error := none, meta := none },
    execResult := fun _ => .ok none,
    batchResult := fun stmts =>
      .ok (stmts.map (fun s =>
        { results := some [JValue.str s.text], error := none, meta := none })) }

/-- A concrete backend whose every execution call throws an `Error`
instance, as D1 does on a failing query. -/
def throwingBackend : Backend :=
  { allResult := fun _ => .error (.errorObj "D1_ERROR"),
    execResult := fun _ => .error (.errorObj "D1_ERROR"),
    batchResult := fun _ => .error (.errorObj "D1_ERROR") }

/-- A 16-character secret used by the concrete witnesses. -/
def secret0 : String := "0123456789abcdef"

/-- Characterisation of a successful `z.string().min(1).max(maxLen).trim()`
parse: the input is a string whose RAW length is within bounds, and the
output is its trimmed form. -/
lemma zodQueryText_some (maxLen : Nat) (v : JValue) (t : String)
    (h : zodQueryText maxLen v = some t) :
    ∃ raw, v = .str raw ∧ 1 ≤ raw.length ∧ raw.length ≤ maxLen ∧ t = jsTrim raw := by
  cases v with
  | str s =>
    change (if 1 ≤ s.length ∧ s.length ≤ maxLen then some (jsTrim s) else none)
      = some t at h
    by_cases hc : 1 ≤ s.length ∧ s.length ≤ maxLen
    · rw [if_pos hc] at h
      exact ⟨s, rfl, hc.1, hc.2, (Option.some.inj h).symm⟩
    · rw [if_neg hc] at h
      exact Option.noConfusion h
  | null => simp [zodQueryText] at h
  | bool b => simp [zodQueryText] at h
  | num q => simp [zodQueryText] at h
  | arr xs => simp [zodQueryText] at h
  | obj fs => simp [zodQueryText] at h

/-- Claim C8: a secret shorter than 16 characters makes the `D1HTTP`
constructor throw the configuration error, and a secret of length at least
16 makes construction succeed with the secret stored unchanged. -/
theorem constructor_secret_length_check (db : Backend) (s : String) :
    (s.length < MIN_SECRET_LENGTH →
      D1HTTP_new db (some s) = .error (.error secretTooShortMsg)) ∧
    (MIN_SECRET_LENGTH ≤ s.length →
      D1HTTP_new db (some s) = .ok { db := db, sharedSecret := s }) := by
  constructor
  · intro h
    simp only [D1HTTP_new]
    rw [if_pos h]
  · intro h
    simp only [D1HTTP_new]
    rw [if_neg (Nat.not_lt.mpr h)]

theorem constructor_secret_length_check_witness :
    D1HTTP_new stubBackend (some secret0)
      = .ok { db := stubBackend, sharedSecret := secret0 } ∧
    D1HTTP_new stubBackend (some "short") = .error (.error secretTooShortMsg) :=
  ⟨(constructor_secret_length_check stubBackend secret0).2 (by decide),
   (constructor_secret_length_check stubBackend "short").1 (by decide)⟩

/-- Claim C9: when the secret is absent (`undefined`), the constructor fails
with the runtime `TypeError` from reading `.length` of `undefined`, not with
the dedicated configuration error. -/
theorem missing_secret_type_error :
    D1HTTP_new stubBackend none = .error (.typeError lengthOfUndefinedMsg) ∧
    D1HTTP_new stubBackend none ≠ .error (.error secretTooShortMsg) := by
  refine ⟨rfl, ?_⟩
  intro h
  have h2 : JSError.typeError lengthOfUndefinedMsg = JSError.error secretTooShortMsg := by
    injection h
  exact JSError.noConfusion h2

/-- Claim C4: a request to any `/query/*` route whose bearer authentication
fails (header missing or token not equal to the secret) is answered with
status 401 and no backend operation is invoked. -/
theorem auth_failure_no_backend_calls (secret : String) (be : Backend)
    (req : QueryRequest) (h : authOK secret req.authHeader = false) :
    (handleQuery secret be req).1.status = 401 ∧
    (handleQuery secret be req).2 = [] := by
  simp [handleQuery, h, unauthorizedResponse]

theorem auth_failure_no_backend_calls_witness :
    authOK secret0 none = false ∧
    (handleQuery secret0 stubBackend
      { route := .all, authHeader := none, body := none }).1.status = 401 ∧
    (handleQuery secret0 stubBackend
      { route := .all, authHeader := none, body := none }).2 = [] :=
  ⟨rfl, auth_failure_no_backend_calls secret0 stubBackend
    { route := .all, authHeader := none, body := none } rfl⟩

/-- Claim C3, counterexample: a POST to `/query/batch/` with an empty
`batch` and no Authorization header is answered 401, not 400 — the bearer
middleware runs before the validator, so the claimed "regardless of
authentication" fails. -/
theorem empty_batch_unauthenticated_401_cex :
    (handleQuery secret0 stubBackend
      { route := .batch, authHeader := none,
        body := some (.obj [("batch", .arr [])]) }).1.status = 401 ∧
    (401 : Nat) ≠ 400 :=
  ⟨rfl, by decide⟩

/-- Claim C3, amended: an AUTHENTICATED POST to `/query/batch/` with an
empty `batch` array is rejected 400 by the schema (nonempty) check, with no
backend call; an unauthenticated one is rejected 401 by the bearer
middleware first. -/
theorem empty_batch_status (secret : String) (be : Backend) (hdr : Option String) :
    (authOK secret hdr = true →
      (handleQuery secret be
        { route := .batch, authHeader := hdr,
          body := some (.obj [("batch", .arr [])]) }).1.status = 400 ∧
      (handleQuery secret be
        { route := .batch, authHeader := hdr,
          body := some (.obj [("batch", .arr [])]) }).2 = []) ∧
    (authOK secret hdr = false →
      (handleQuery secret be
        { route := .batch, authHeader := hdr,
          body := some (.obj [("batch", .arr [])]) }).1.status = 401) := by
  constructor
  · intro h
    constructor <;>
      simp [handleQuery, h, parseBatchQuery, getField, parseQueryList,
        validationFailureResponse]
  · intro h
    simp [handleQuery, h, unauthorizedResponse]

theorem empty_batch_status_witness :
    (authOK secret0 (some ("Bearer " ++ secret0)) = true ∧
      (handleQuery secret0 stubBackend
        { route := .batch, authHeader := some ("Bearer " ++ secret0),
          body := some (.obj [("batch", .arr [])]) }).1.status = 400) ∧
    (authOK secret0 none = false ∧
      (handleQuery secret0 stubBackend
        { route := .batch, authHeader := none,
          body := some (.obj [("batch", .arr [])]) }).1.status = 401) :=
  ⟨⟨rfl, ((empty_batch_status secret0 stubBackend (some ("Bearer " ++ secret0))).1 rfl).1⟩,
   ⟨rfl, (empty_batch_status secret0 stubBackend none).2 rfl⟩⟩


/-- Claim C2, counterexample: the whitespace-only body value `" "` passes
both validators (its RAW length 1 satisfies `min(1)`, and `trim()` runs only
afterwards), and the handler receives the empty string. -/
theorem whitespace_queryText_accepted_cex :
    parsePreparedQuery (.obj [("queryText", .str " ")])
      = some { queryText := "", params := none } ∧
    parseExecQuery (.obj [("queryText", .str " ")]) = some "" :=
  ⟨rfl, rfl⟩

/-- Unfolding of the `PreparedQuery` schema on a two-field
`{queryText, params}` body: acceptance depends only on the `queryText`
string check; the `params` array is passed through whatever its elements. -/
lemma parsePreparedQuery_two_fields (qt : String) (xs : List JValue) :
    parsePreparedQuery (.obj [("queryText", .str qt), ("params", .arr xs)])
      = match zodQueryText 10000 (.str qt) with
        | none => none
        | some t => some { queryText := t, params := some xs } := rfl

/-- Claim C2, amended: the validators check the 1–max length bounds on the
RAW string and only then apply `trim()`, so the delivered `queryText` is the
trimmed form of a raw string of raw length at least 1 — and may itself be
empty when the raw string is whitespace-only. -/
theorem queryText_minmax_before_trim :
    (∀ v q, parsePreparedQuery v = some q →
      ∃ fs raw, v = .obj fs ∧ getField fs "queryText" = some (.str raw) ∧
        1 ≤ raw.length ∧ raw.length ≤ 10000 ∧ q.queryText = jsTrim raw) ∧
    (∀ v t, parseExecQuery v = some t →
      ∃ fs raw, v = .obj fs ∧ getField fs "queryText" = some (.str raw) ∧
        1 ≤ raw.length ∧ raw.length ≤ 1000000 ∧ t = jsTrim raw) := by
  constructor
  · intro v q h
    cases v with
    | obj fs =>
      simp only [parsePreparedQuery] at h
      cases hq : getField fs "queryText" with
      | none => rw [hq] at h; exact Option.noConfusion h
      | some qv =>
        simp only [hq] at h
        cases hz : zodQueryText 10000 qv with
        | none => simp only [hz] at h; exact Option.noConfusion h
        | some t =>
          simp only [hz] at h
          obtain ⟨raw, hv, h1, h2, ht⟩ := zodQueryText_some _ _ _ hz
          cases hps : zodParams (getField fs "params") with
          | none => simp only [hps] at h; exact Option.noConfusion h
          | some ps =>
            simp only [hps] at h
            have hqe : ({ queryText := t, params := ps } : PreparedQuery) = q := by
              simpa using h
            subst hqe
            exact ⟨fs, raw, rfl, hv ▸ hq, h1, h2, ht⟩
    | null => exact Option.noConfusion h
    | bool b => exact Option.noConfusion h
    | num n => exact Option.noConfusion h
    | str s => exact Option.noConfusion h
    | arr xs => exact Option.noConfusion h
  · intro v t h
    cases v with
    | obj fs =>
      simp only [parseExecQuery] at h
      cases hq : getField fs "queryText" with
      | none => rw [hq] at h; exact Option.noConfusion h
      | some qv =>
        simp only [hq] at h
        obtain ⟨raw, hv, h1, h2, ht⟩ := zodQueryText_some _ _ _ h
        exact ⟨fs, raw, rfl, hv ▸ hq, h1, h2, ht⟩
    | null => exact Option.noConfusion h
    | bool b => exact Option.noConfusion h
    | num n => exact Option.noConfusion h
    | str s => exact Option.noConfusion h
    | arr xs => exact Option.noConfusion h

theorem queryText_minmax_before_trim_witness :
    ∃ fs raw,
      JValue.obj [("queryText", JValue.str "SELECT 1")] = .obj fs ∧
      getField fs "queryText" = some (.str raw) ∧
      1 ≤ raw.length ∧ raw.length ≤ 10000 ∧
      ({ queryText := "SELECT 1", params := none } : PreparedQuery).queryText
        = jsTrim raw :=
  queryText_minmax_before_trim.1 (.obj [("queryText", .str "SELECT 1")])
    { queryText := "SELECT 1", params := none } rfl

/-- Claim C5, counterexample: a `params` array containing an object and a
nested array is accepted by the `PreparedQuery` validator and delivered
verbatim — `z.any()` restricts nothing. -/
theorem object_param_accepted_cex :
    parsePreparedQuery
      (.obj [("queryText", .str "SELECT 1"),
             ("params", .arr [.obj [("a", .num 1)], .arr [.null]])])
      = some { queryText := "SELECT 1",
               params := some [.obj [("a", .num 1)], .arr [.null]] } :=
  rfl

/-- Claim C5, amended: the `params` field is validated only for being an
array; its elements are arbitrary JSON values (`z.any()`), scalar or
structured, and are delivered to the handler unchanged whenever the
`queryText` field validates. -/
theorem params_any_values_accepted (qt t : String) (xs : List JValue)
    (h : zodQueryText 10000 (.str qt) = some t) :
    parsePreparedQuery (.obj [("queryText", .str qt), ("params", .arr xs)])
      = some { queryText := t, params := some xs } := by
  rw [parsePreparedQuery_two_fields, h]

theorem params_any_values_accepted_witness :
    zodQueryText 10000 (.str "SELECT 1") = some "SELECT 1" ∧
    parsePreparedQuery
      (.obj [("queryText", .str "SELECT 1"), ("params", .arr [.obj []])])
      = some { queryText := "SELECT 1", params := some [.obj []] } :=
  ⟨rfl, params_any_values_accepted "SELECT 1" "SELECT 1" [.obj []] rfl⟩

/-- Claim C1, counterexample: an authenticated, schema-valid `/query/exec/`
request whose backend exec call throws an `Error` instance is answered 500
with body `{error: {}}` — the catch branch returns the RAW thrown value, so
the `error` field is not a string. -/
theorem exec_error_nonstring_cex :
    (handleQuery secret0 throwingBackend
      { route := .exec, authHeader := some ("Bearer " ++ secret0),
        body := some (.obj [("queryText", .str "SELECT 1")]) }).1
      = { status := 500, body := .obj [("error", .obj [])] } ∧
    JValue.isStr (.obj []) = false :=
  ⟨rfl, rfl⟩

/-- Claim C1, amended: the `/all/` and `/batch/` catch branches answer 500
with an `error` field that is the string `failed to ... query: ERR`; the
`/exec/` catch branch answers 500 with the raw thrown value as the `error`
field, which is a string only when the thrown value serialises as one. -/
theorem error_branch_shapes (be : Backend) :
    (∀ q err, be.allResult (mkStmt q) = .error err →
      (allHandler be q).1
        = { status := 500,
            body := .obj [("error", .str ("failed to run query: " ++ err.jsStr))] }) ∧
    (∀ qs err, be.batchResult (qs.map mkStmt) = .error err →
      (batchHandler be qs).1
        = { status := 500,
            body := .obj [("error", .str ("failed to batch query: " ++ err.jsStr))] }) ∧
    (∀ t err, be.execResult t = .error err →
      (execHandler be t).1
        = { status := 500, body := .obj [("error", err.toJson)] }) := by
  refine ⟨?_, ?_, ?_⟩
  · intro q err h; simp [allHandler, h]
  · intro qs err h; simp [batchHandler, h]
  · intro t err h; simp [execHandler, h]

theorem error_branch_shapes_witness :
    (allHandler throwingBackend { queryText := "SELECT 1", params := none }).1
      = { status := 500,
          body := .obj [("error", .str "failed to run query: Error: D1_ERROR")] } ∧
    (execHandler throwingBackend "SELECT 1").1
      = { status := 500, body := .obj [("error", .obj [])] } :=
  ⟨(error_branch_shapes throwingBackend).1 { queryText := "SELECT 1", params := none }
      (.errorObj "D1_ERROR") rfl,
   (error_branch_shapes throwingBackend).2.2 "SELECT 1" (.errorObj "D1_ERROR") rfl⟩

/-- Claim C7: when the backend batch call succeeds with one result per
submitted statement, the response is 200 with an array of exactly N
envelopes, element `i` enveloping the backend result for statement `i`, and
the submitted statements were built from the submitted queries in order. -/
theorem batch_length_and_order (be : Backend) (qs : List PreparedQuery)
    (rs : List D1Result)
    (hok : be.batchResult (qs.map mkStmt) = Except.ok rs)
    (hlen : rs.length = qs.length) :
    (batchHandler be qs).1.status = 200 ∧
    (batchHandler be qs).1.body = .arr (rs.map d1Envelope) ∧
    (rs.map d1Envelope).length = qs.length ∧
    (∀ i : Nat, (rs.map d1Envelope)[i]? = (rs[i]?).map d1Envelope) ∧
    (batchHandler be qs).2 = batchPrepOps qs ++ [BackendOp.batch (qs.map mkStmt)] ∧
    (∀ i : Nat, (qs.map mkStmt)[i]? = (qs[i]?).map mkStmt) := by
  refine ⟨?_, ?_, ?_, ?_, ?_, ?_⟩
  · simp [batchHandler, hok]
  · simp [batchHandler, hok]
  · simp [hlen]
  · intro i; exact List.getElem?_map d1Envelope rs i
  · simp [batchHandler, hok]
  · intro i; exact List.getElem?_map mkStmt qs i

/-- A concrete two-query batch used by the batch witness. -/
def qs0 : List PreparedQuery :=
  [{ queryText := "q1", params := none },
   { queryText := "q2", params := some [.num 1] }]

/-- The results `stubBackend` returns for the statements of `qs0`. -/
def rs0 : List D1Result :=
  [{ results := some [.str "q1"], error := none, meta := none },
   { results := some [.str "q2"], error := none, meta := none }]

theorem batch_length_and_order_witness :
    (batchHandler stubBackend qs0).1.status = 200 ∧
    (batchHandler stubBackend qs0).1.body = .arr (rs0.map d1Envelope) ∧
    (rs0.map d1Envelope).length = qs0.length ∧
    (rs0.map d1Envelope)[1]? = (rs0[1]?).map d1Envelope ∧
    (qs0.map mkStmt)[1]? = (qs0[1]?).map mkStmt :=
  ⟨(batch_length_and_order stubBackend qs0 rs0 rfl rfl).1,
   (batch_length_and_order stubBackend qs0 rs0 rfl rfl).2.1,
   (batch_length_and_order stubBackend qs0 rs0 rfl rfl).2.2.1,
   (batch_length_and_order stubBackend qs0 rs0 rfl rfl).2.2.2.1 1,
   (batch_length_and_order stubBackend qs0 rs0 rfl rfl).2.2.2.2.2 1⟩

/-- Claim C10: a successful `/query/exec/` call always answers 200 with
numeric `count` and `durationMs` fields, computed as `out?.count || 0` and
`out?.duration || 0`: absent (`undefined` result or missing property) and
falsy (`0`) values both yield `0`. -/
theorem exec_success_count_duration (be : Backend) (t : String)
    (out : Option ExecOut) (h : be.execResult t = Except.ok out) :
    (execHandler be t).1.status = 200 ∧
    (execHandler be t).1.body
      = .obj [("count", .num (orZero (out.bind ExecOut.count))),
              ("durationMs", .num (orZero (out.bind ExecOut.duration)))] ∧
    (out.bind ExecOut.count = none ∨ out.bind ExecOut.count = some 0 →
      orZero (out.bind ExecOut.count) = 0) ∧
    (out.bind ExecOut.duration = none ∨ out.bind ExecOut.duration = some 0 →
      orZero (out.bind ExecOut.duration) = 0) := by
  refine ⟨?_, ?_, ?_, ?_⟩
  · simp [execHandler, h]
  · simp [execHandler, h]
  · rintro (hc | hc) <;> simp [orZero, hc]
  · rintro (hc | hc) <;> simp [orZero, hc]

theorem exec_success_count_duration_witness :
    (execHandler stubBackend "CREATE TABLE t (a)").1.status = 200 ∧
    (execHandler stubBackend "CREATE TABLE t (a)").1.body
      = .obj [("count", .num (orZero ((none : Option ExecOut).bind ExecOut.count))),
              ("durationMs", .num (orZero ((none : Option ExecOut).bind ExecOut.duration)))] ∧
    orZero ((none : Option ExecOut).bind ExecOut.count) = 0 :=
  ⟨(exec_success_count_duration stubBackend "CREATE TABLE t (a)" none rfl).1,
   (exec_success_count_duration stubBackend "CREATE TABLE t (a)" none rfl).2.1,
   (exec_success_count_duration stubBackend "CREATE TABLE t (a)" none rfl).2.2.1 (Or.inl rfl)⟩

/-- Outcome classification of the `/all/` handler: 200 on success, else 500
with an `error` field present in the JSON body. -/
lemma allHandler_classify (be : Backend) (q : PreparedQuery) :
    (allHandler be q).1.status = 200 ∨
    ((allHandler be q).1.status = 500 ∧
      ((allHandler be q).1.body.errorField).isSome = true) := by
  cases h : be.allResult (mkStmt q) with
  | ok r => left; simp [allHandler, h]
  | error e => right; simp [allHandler, h, JValue.errorField, getField]

/-- Outcome classification of the `/exec/` handler: 200 on success, else 500
with an `error` field present in the JSON body. -/
lemma execHandler_classify (be : Backend) (t : String) :
    (execHandler be t).1.status = 200 ∨
    ((execHandler be t).1.status = 500 ∧
      ((execHandler be t).1.body.errorField).isSome = true) := by
  cases h : be.execResult t with
  | ok r => left; simp [execHandler, h]
  | error e => right; simp [execHandler, h, JValue.errorField, getField]

/-- Outcome classification of the `/batch/` handler: 200 on success, else
500 with an `error` field present in the JSON body. -/
lemma batchHandler_classify (be : Backend) (qs : List PreparedQuery) :
    (batchHandler be qs).1.status = 200 ∨
    ((batchHandler be qs).1.status = 500 ∧
      ((batchHandler be qs).1.body.errorField).isSome = true) := by
  cases h : be.batchResult (qs.map mkStmt) with
  | ok r => left; simp [batchHandler, h]
  | error e => right; simp [batchHandler, h, JValue.errorField, getField]

/-- Claim C6, counterexample: a request arriving while the DB binding is
absent makes the `fetch` handler throw (line 88) — an unhandled exception,
not a JSON error response. -/
theorem missing_db_unhandled_throw_cex :
    fetchHandler { DB := none, APP_SECRET := some secret0 }
      { route := .all, authHeader := some ("Bearer " ++ secret0),
        body := some (.obj [("queryText", .str "SELECT 1")]) }
      = .error (.error dbMissingMsg) := rfl

/-- Claim C6, amended: with the DB binding absent every request makes
`fetch` throw an unhandled exception; with it present, every `/query/*`
response is 200, 400 (validation), 401 (authentication), or 500 with a JSON
body carrying an `error` field. -/
theorem failure_path_classification :
    (∀ sec req, ∃ e,
      fetchHandler { DB := none, APP_SECRET := sec } req = .error e) ∧
    (∀ secret be req,
      (handleQuery secret be req).1.status = 200 ∨
      (handleQuery secret be req).1.status = 400 ∨
      (handleQuery secret be req).1.status = 401 ∨
      ((handleQuery secret be req).1.status = 500 ∧
        ((handleQuery secret be req).1.body.errorField).isSome = true)) := by
  constructor
  · intro sec req
    exact ⟨.error dbMissingMsg, rfl⟩
  · intro secret be req
    obtain ⟨route, hdr, body⟩ := req
    by_cases hauth : authOK secret hdr = true
    · cases route with
      | all =>
        cases hb : body.bind parsePreparedQuery with
        | none =>
          right; left
          simp [handleQuery, hauth, hb, validationFailureResponse]
        | some q =>
          rcases allHandler_classify be q with h | h
          · left; simpa [handleQuery, hauth, hb] using h
          · right; right; right; simpa [handleQuery, hauth, hb] using h
      | exec =>
        cases hb : body.bind parseExecQuery with
        | none =>
          right; left
          simp [handleQuery, hauth, hb, validationFailureResponse]
        | some t =>
          rcases execHandler_classify be t with h | h
          · left; simpa [handleQuery, hauth, hb] using h
          · right; right; right; simpa [handleQuery, hauth, hb] using h
      | batch =>
        cases hb : body.bind parseBatchQuery with
        | none =>
          right; left
          simp [handleQuery, hauth, hb, validationFailureResponse]
        | some qs =>
          rcases batchHandler_classify be qs with h | h
          · left; simpa [handleQuery, hauth, hb] using h
          · right; right; right; simpa [handleQuery, hauth, hb] using h
    · right; right; left
      have hfalse : authOK secret hdr = false := by
        simpa using hauth
      simp [handleQuery, hfalse, unauthorizedResponse]
